import Mathlib

/-!
Shallow embedding of `scripts/useful_utilities.py` (Coreform Cubit helper
utilities).  The CAD host (`cubit`) is modelled as an abstract environment
`Host` recording what its query API would return; each Python function is
translated to a pure Lean function producing the ordered list of host
interactions (`Event`s) it performs, together with its return value where
the Python function returns one.
-/

/-- One interaction with the CAD host: a textual command (`cubit.cmd`),
a terminal print, a tolerance setter, or one of the query calls. -/
inductive Event where
  | cmd (s : String)
  | print (s : String)
  | setOverlapMaxGap (v : ℚ)
  | setOverlapMaxAngle (v : ℚ)
  | queryEntities (kind : String)
  | queryGroupVolumes (gid : Nat)
  | queryOverlappingVolumes (vid : Nat)
  | querySurfaceType (sid : Nat)
  | queryCurveType (cid : Nat)
  | queryIdFromName (nm : String)
  deriving DecidableEq

/-- The abstract CAD host state, as seen through the query API the
scripts call: entity enumerations, group membership, per-entity type
labels, the overlap query, and name lookup (0 = no such name). -/
structure Host where
  volumes : List Nat
  groups : List Nat
  groupVolumes : Nat → List Nat
  surfaces : List Nat
  curves : List Nat
  surfaceType : Nat → String
  curveType : Nat → String
  overlappingVolumesAt : Nat → List Nat
  idFromName : String → Nat

/-- The command string of an event, when it is a `cubit.cmd` call. -/
def Event.cmdString : Event → Option String
  | .cmd s => some s
  | _ => none

/-- The commands (in order) issued in a trace. -/
def cmds (t : List Event) : List String :=
  t.filterMap Event.cmdString

/-- The single-quote character used by Cubit group-name syntax. -/
def squote : String := String.singleton (Char.ofNat 39)

/-- Translation of `list_to_str`: `" ".join([str(val) for val in input_str])`. -/
def list_to_str {α : Type} [ToString α] (input_str : List α) : String :=
  String.intercalate (" ") (input_str.map toString)

/-- The `create group '<pfx>_<vid>'` command string. -/
def createGroupCmd (p : String) (vid : Nat) : String :=
  "create group " ++ squote ++ p ++ "_" ++ toString vid ++ squote

/-- The `<pfx>_<vid> add volume <vid>` command string. -/
def addVolumeCmd (p : String) (vid : Nat) : String :=
  p ++ "_" ++ toString vid ++ " add volume " ++ toString vid

/-- Translation of `part_volumes_to_part_groups(prefix=None)`: the Python `prefix`
argument is modelled as `Option String` (`none` = omitted / `None`). -/
def part_volumes_to_part_groups (host : Host) (pfx : Option String) : List Event :=
  let p := pfx.getD ("part")
  Event.queryEntities ("volume") ::
    host.volumes.flatMap (fun vid =>
      [Event.cmd (createGroupCmd p vid), Event.cmd (addVolumeCmd p vid)])

/-- Translation of `imprint_merge_each_group()`. -/
def imprint_merge_each_group (host : Host) : List Event :=
  Event.queryEntities ("group") ::
    host.groups.flatMap (fun gid =>
      let vid := host.groupVolumes gid
      Event.queryGroupVolumes gid ::
        (if vid.length > 1 then
          [Event.cmd ("imprint vol " ++ list_to_str vid),
           Event.cmd ("merge vol " ++ list_to_str vid)]
        else []))

/-- The `remove overlap volume <vid> <mid> modify volume <mid>` command string. -/
def removeOverlapCmd (vid mid : Nat) : String :=
  "remove overlap volume " ++ toString vid ++ " " ++ toString mid ++
    " modify volume " ++ toString mid

/-- Python default for `max_gap`. -/
def default_max_gap : ℚ := 0.0005

/-- Python default for `max_angle`. -/
def default_max_angle : ℚ := 5.0

/-- Translation of `batch_remove_overlaps_from_volume(modify_volume_id, max_gap=0.0005,
max_angle=5.0)`; callers using the Python defaults pass `default_max_gap`
and `default_max_angle`. -/
def batch_remove_overlaps_from_volume (host : Host) (modify_volume_id : Nat)
    (max_gap max_angle : ℚ) : List Event :=
  Event.setOverlapMaxGap max_gap ::
    Event.setOverlapMaxAngle max_angle ::
    Event.queryEntities ("volume") ::
    Event.queryOverlappingVolumes modify_volume_id ::
    (host.overlappingVolumesAt modify_volume_id).map (fun vid =>
      Event.cmd (removeOverlapCmd vid modify_volume_id))

/-- Python `str.lower()` as the scripts use it: per-character lowercasing
(the host's ASCII type labels are all this code ever lowercases). -/
def pyLower (s : String) : String := String.mk (s.data.map Char.toLower)

/-- The surface-classification loop of `count_acis_entity_types`: walk the
surface ids, lowercase each host type label, and append the id to the
bucket selected by the `if`/`elif` chain (plane, cone, sphere, torus,
spline); ids matching no label land in no bucket. -/
def classifySurfaces (typeOf : Nat → String) :
    List Nat → List Nat × List Nat × List Nat × List Nat × List Nat
  | [] => ([], [], [], [], [])
  | sid :: rest =>
    let (p, c, s, t, sp) := classifySurfaces typeOf rest
    let surf_type := pyLower (typeOf sid)
    if surf_type == "plane surface" then (sid :: p, c, s, t, sp)
    else if surf_type == "cone surface" then (p, sid :: c, s, t, sp)
    else if surf_type == "sphere surface" then (p, c, sid :: s, t, sp)
    else if surf_type == "torus surface" then (p, c, s, sid :: t, sp)
    else if surf_type == "spline surface" then (p, c, s, t, sid :: sp)
    else (p, c, s, t, sp)

/-- The curve-classification loop of `count_acis_entity_types`: straight,
arc, ellipse, spline buckets. -/
def classifyCurves (typeOf : Nat → String) :
    List Nat → List Nat × List Nat × List Nat × List Nat
  | [] => ([], [], [], [])
  | cid :: rest =>
    let (st, a, e, sp) := classifyCurves typeOf rest
    let curve_type := pyLower (typeOf cid)
    if curve_type == "straight curve" then (cid :: st, a, e, sp)
    else if curve_type == "arc curve" then (st, cid :: a, e, sp)
    else if curve_type == "ellipse curve" then (st, a, cid :: e, sp)
    else if curve_type == "spline curve" then (st, a, e, cid :: sp)
    else (st, a, e, sp)

/-- The nine-line count report built in `out_str`. -/
def countReport (ns : List Nat × List Nat × List Nat × List Nat × List Nat)
    (nc : List Nat × List Nat × List Nat × List Nat) : String :=
  "Number of Plane  Surfaces: " ++ toString ns.1.length ++ "\n" ++
  "Number of Cone   Surfaces: " ++ toString ns.2.1.length ++ "\n" ++
  "Number of Sphere Surfaces: " ++ toString ns.2.2.1.length ++ "\n" ++
  "Number of Torus  Surfaces: " ++ toString ns.2.2.2.1.length ++ "\n" ++
  "Number of Spline Surfaces: " ++ toString ns.2.2.2.2.length ++ "\n" ++
  "Number of Straight Curves: " ++ toString nc.1.length ++ "\n" ++
  "Number of Arc      Curves: " ++ toString nc.2.1.length ++ "\n" ++
  "Number of Ellipse  Curves: " ++ toString nc.2.2.1.length ++ "\n" ++
  "Number of Spline   Curves: " ++ toString nc.2.2.2.length ++ "\n"

/-- Translation of `count_acis_entity_types()`: returns the interaction trace and the
value `((plane, cone, sphere, torus, spline), (straight, arc, ellipse,
spline))` the Python function returns. -/
def count_acis_entity_types (host : Host) :
    List Event ×
      ((List Nat × List Nat × List Nat × List Nat × List Nat) ×
        (List Nat × List Nat × List Nat × List Nat)) :=
  let S := host.surfaces
  let C := host.curves
  let surfBuckets := classifySurfaces host.surfaceType S
  let curveBuckets := classifyCurves host.curveType C
  let out_str := countReport surfBuckets curveBuckets
  (Event.queryEntities ("surface") :: Event.queryEntities ("curve") ::
      (S.map Event.querySurfaceType ++ C.map Event.queryCurveType ++
        [Event.print out_str]),
    (surfBuckets, curveBuckets))

/-- The per-surface loop of `color_spline_surfaces`: for each surface id,
query its type; a spline surface is collected and colored red, any other
surface is colored white.  Returns the loop's events and the collected
`spline_surf` list. -/
def colorLoop (typeOf : Nat → String) : List Nat → List Event × List Nat
  | [] => ([], [])
  | sid :: rest =>
    let (evts, sp) := colorLoop typeOf rest
    let surf_type := pyLower (typeOf sid)
    if surf_type == "spline surface" then
      (Event.querySurfaceType sid ::
        Event.cmd ("color surface " ++ toString sid ++ " red") :: evts,
        sid :: sp)
    else
      (Event.querySurfaceType sid ::
        Event.cmd ("color surface " ++ toString sid ++ " white") :: evts,
        sp)

/-- Translation of `color_spline_surfaces()`. -/
def color_spline_surfaces (host : Host) : List Event :=
  Event.cmd ("color surface all default") ::
    Event.queryIdFromName ("spline_surfaces") ::
    ((if host.idFromName ("spline_surfaces") ≠ 0 then
        [Event.cmd ("delete spline_surfaces")]
      else []) ++
      (Event.cmd ("create group " ++ squote ++ "spline_surfaces" ++ squote) ::
        Event.queryEntities ("surface") ::
        (let (loopEvts, spline_surf) := colorLoop host.surfaceType host.surfaces
         loopEvts ++
           [Event.cmd ("spline_surfaces add surface " ++ list_to_str spline_surf)])))

/-- A straight-line trace executed against a host whose interaction number
`k` (0-based, counted from the start of the call) raises error `err`:
interactions run in order; the first failing one stops execution.  Returns
the interactions actually performed and the propagated error, if any.
There is no `try`/`except` anywhere in the scripts, so this is the
exception semantics of every function in the file. -/
def runTrace (failsAt : Nat → Bool) (err : String) : List Event → Nat → List Event × Option String
  | [], _ => ([], none)
  | e :: rest, k =>
    if failsAt k then ([], some err)
    else
      let (done, r) := runTrace failsAt err rest (k + 1)
      (e :: done, r)

/-- Taken from the spec's words: "space-separated concatenation of the
string forms of its elements in order"; compared against `list_to_str`
(which is translated from the source). -/
def spec_space_separated {α : Type} [ToString α] : List α → String
  | [] => ""
  | [x] => toString x
  | x :: y :: xs => toString x ++ " " ++ spec_space_separated (y :: xs)

/-- The print string of an event, when it is a `print` call. -/
def Event.printString : Event → Option String
  | .print s => some s
  | _ => none

/-- The strings printed in a trace, in order. -/
def prints (t : List Event) : List String :=
  t.filterMap Event.printString

/-- Whether an event is the `cubit.set_overlap_max_gap` call. -/
def Event.isSetGap : Event → Bool
  | .setOverlapMaxGap _ => true
  | _ => false

/-- Whether an event is the `cubit.set_overlap_max_angle` call. -/
def Event.isSetAngle : Event → Bool
  | .setOverlapMaxAngle _ => true
  | _ => false

/-- A concrete host with a single group (id 7) whose member volumes are
`[3, 5, 9]`; used to exhibit the spec's imprint/merge example. -/
def exampleGroupHost : Host where
  volumes := [3, 5, 9]
  groups := [7]
  groupVolumes := fun _ => [3, 5, 9]
  surfaces := []
  curves := []
  surfaceType := fun _ => ""
  curveType := fun _ => ""
  overlappingVolumesAt := fun _ => []
  idFromName := fun _ => 0

/-- A concrete host whose five surfaces and four curves carry mixed-case
versions of all nine known type labels, to exhibit case-insensitive
classification for every label. -/
def mixedCaseHost : Host where
  volumes := []
  groups := []
  groupVolumes := fun _ => []
  surfaces := [1, 2, 3, 4, 5]
  curves := [6, 7, 8, 9]
  surfaceType := fun sid =>
    if sid = 1 then "Plane Surface"
    else if sid = 2 then "CONE SURFACE"
    else if sid = 3 then "Sphere surface"
    else if sid = 4 then "tOrUs SuRfAcE"
    else "Spline Surface"
  curveType := fun cid =>
    if cid = 6 then "Straight Curve"
    else if cid = 7 then "ARC CURVE"
    else if cid = 8 then "Ellipse curve"
    else "Spline Curve"
  overlappingVolumesAt := fun _ => []
  idFromName := fun _ => 0

/-- A concrete host with two non-spline surfaces and a pre-existing
`spline_surfaces` group (name lookup returns id 1). -/
def noSplineHost : Host where
  volumes := []
  groups := []
  groupVolumes := fun _ => []
  surfaces := [1, 2]
  curves := []
  surfaceType := fun _ => "plane surface"
  curveType := fun _ => ""
  overlappingVolumesAt := fun _ => []
  idFromName := fun _ => 1

/-- Tail of a separated join: `sepTailAux s [a, b] = s ++ a ++ s ++ b`. -/
def sepTailAux (s : String) : List String → String
  | [] => ""
  | a :: as => s ++ a ++ sepTailAux s as

section Helpers

theorem sepTail_go (s : String) : ∀ (as : List String) (acc : String),
    String.intercalate.go acc s as = acc ++ sepTailAux s as := by
  intro as
  induction as with
  | nil =>
    intro acc
    simp [String.intercalate.go, sepTailAux]
  | cons a as ih =>
    intro acc
    simp [String.intercalate.go, sepTailAux, ih, String.append_assoc]

theorem list_to_str_eq_spec {α : Type} [ToString α] (l : List α) :
    list_to_str l = spec_space_separated l := by
  induction l with
  | nil => rfl
  | cons x xs ih =>
    cases xs with
    | nil => rfl
    | cons y ys =>
      have h1 : list_to_str (x :: y :: ys) =
          String.intercalate.go (toString x) (" ") (toString y :: ys.map toString) := rfl
      have h2 : list_to_str (y :: ys) =
          String.intercalate.go (toString y) (" ") (ys.map toString) := rfl
      rw [h1, sepTail_go, spec_space_separated, ← ih, h2, sepTail_go]
      simp [sepTailAux, String.append_assoc]

theorem cmds_nil : cmds [] = [] := rfl

theorem cmds_append (a b : List Event) : cmds (a ++ b) = cmds a ++ cmds b := by
  simp [cmds]

theorem cmds_flatMap {β : Type} (l : List β) (f : β → List Event) :
    cmds (l.flatMap f) = l.flatMap (fun x => cmds (f x)) := by
  induction l with
  | nil => rfl
  | cons x xs ih => simp [List.flatMap_cons, cmds_append, ih]

theorem classifySurfaces_eq_filter (typeOf : Nat → String) (l : List Nat) :
    classifySurfaces typeOf l =
      (l.filter (fun x => pyLower (typeOf x) == "plane surface"),
       l.filter (fun x => pyLower (typeOf x) == "cone surface"),
       l.filter (fun x => pyLower (typeOf x) == "sphere surface"),
       l.filter (fun x => pyLower (typeOf x) == "torus surface"),
       l.filter (fun x => pyLower (typeOf x) == "spline surface")) := by
  induction l with
  | nil => rfl
  | cons sid rest ih =>
    simp only [classifySurfaces, ih, List.filter]
    cases hb1 : (pyLower (typeOf sid) == "plane surface") with
    | true => simp_all [beq_iff_eq]
    | false =>
      cases hb2 : (pyLower (typeOf sid) == "cone surface") with
      | true => simp_all [beq_iff_eq]
      | false =>
        cases hb3 : (pyLower (typeOf sid) == "sphere surface") with
        | true => simp_all [beq_iff_eq]
        | false =>
          cases hb4 : (pyLower (typeOf sid) == "torus surface") with
          | true => simp_all [beq_iff_eq]
          | false =>
            cases hb5 : (pyLower (typeOf sid) == "spline surface") with
            | true => simp_all [beq_iff_eq]
            | false => simp_all

theorem classifyCurves_eq_filter (typeOf : Nat → String) (l : List Nat) :
    classifyCurves typeOf l =
      (l.filter (fun x => pyLower (typeOf x) == "straight curve"),
       l.filter (fun x => pyLower (typeOf x) == "arc curve"),
       l.filter (fun x => pyLower (typeOf x) == "ellipse curve"),
       l.filter (fun x => pyLower (typeOf x) == "spline curve")) := by
  induction l with
  | nil => rfl
  | cons cid rest ih =>
    simp only [classifyCurves, ih, List.filter]
    cases hb1 : (pyLower (typeOf cid) == "straight curve") with
    | true => simp_all [beq_iff_eq]
    | false =>
      cases hb2 : (pyLower (typeOf cid) == "arc curve") with
      | true => simp_all [beq_iff_eq]
      | false =>
        cases hb3 : (pyLower (typeOf cid) == "ellipse curve") with
        | true => simp_all [beq_iff_eq]
        | false =>
          cases hb4 : (pyLower (typeOf cid) == "spline curve") with
          | true => simp_all [beq_iff_eq]
          | false => simp_all

theorem colorLoop_snd (typeOf : Nat → String) (l : List Nat) :
    (colorLoop typeOf l).2 =
      l.filter (fun sid => pyLower (typeOf sid) == "spline surface") := by
  induction l with
  | nil => rfl
  | cons sid rest ih =>
    simp only [colorLoop, List.filter]
    cases hb : (pyLower (typeOf sid) == "spline surface") with
    | true => simp_all
    | false => simp_all

theorem colorLoop_cmds (typeOf : Nat → String) (l : List Nat) :
    cmds (colorLoop typeOf l).1 =
      l.map (fun sid => "color surface " ++ toString sid ++
        (if pyLower (typeOf sid) == "spline surface" then " red" else " white")) := by
  induction l with
  | nil => rfl
  | cons sid rest ih =>
    simp only [colorLoop, List.map]
    cases hb : (pyLower (typeOf sid) == "spline surface") with
    | true => simp_all [cmds, Event.cmdString]
    | false => simp_all [cmds, Event.cmdString]

theorem runTrace_stops (failsAt : Nat → Bool) (err : String) :
    ∀ (t : List Event) (k k0 : Nat),
      (∀ j, j < k → failsAt (k0 + j) = false) →
      failsAt (k0 + k) = true → k < t.length →
      runTrace failsAt err t k0 = (t.take k, some err) := by
  intro t
  induction t with
  | nil =>
    intro k k0 h1 h2 h3
    simp at h3
  | cons e rest ih =>
    intro k k0 h1 h2 h3
    cases k with
    | zero =>
      have hf : failsAt k0 = true := by simpa using h2
      simp [runTrace, hf]
    | succ k =>
      have hf : failsAt k0 = false := by
        have := h1 0 (Nat.succ_pos k)
        simpa using this
      have iha : ∀ j, j < k → failsAt (k0 + 1 + j) = false := by
        intro j hj
        have h := h1 (j + 1) (by omega)
        have e2 : k0 + (j + 1) = k0 + 1 + j := by omega
        rwa [e2] at h
      have ihb : failsAt (k0 + 1 + k) = true := by
        have e2 : k0 + (k + 1) = k0 + 1 + k := by omega
        rwa [e2] at h2
      have ihc : k < rest.length := by
        simp at h3
        omega
      have ih2 := ih k (k0 + 1) iha ihb ihc
      simp [runTrace, hf, ih2]

theorem part_groups_cmds (host : Host) (pfx : Option String) :
    cmds (part_volumes_to_part_groups host pfx) =
      host.volumes.flatMap (fun vid =>
        [createGroupCmd (pfx.getD ("part")) vid,
         addVolumeCmd (pfx.getD ("part")) vid]) := by
  have e1 : cmds (part_volumes_to_part_groups host pfx) =
      cmds (host.volumes.flatMap (fun vid =>
        [Event.cmd (createGroupCmd (pfx.getD ("part")) vid),
         Event.cmd (addVolumeCmd (pfx.getD ("part")) vid)])) := rfl
  rw [e1, cmds_flatMap]
  simp [cmds, Event.cmdString]

theorem imprint_merge_cmds (host : Host) :
    cmds (imprint_merge_each_group host) =
      host.groups.flatMap (fun gid =>
        if (host.groupVolumes gid).length > 1 then
          ["imprint vol " ++ list_to_str (host.groupVolumes gid),
           "merge vol " ++ list_to_str (host.groupVolumes gid)]
        else []) := by
  have e1 : cmds (imprint_merge_each_group host) =
      cmds (host.groups.flatMap (fun gid =>
        Event.queryGroupVolumes gid ::
          (if (host.groupVolumes gid).length > 1 then
            [Event.cmd ("imprint vol " ++ list_to_str (host.groupVolumes gid)),
             Event.cmd ("merge vol " ++ list_to_str (host.groupVolumes gid))]
          else []))) := rfl
  rw [e1]
  induction host.groups with
  | nil => rfl
  | cons g gs ih =>
    simp only [List.flatMap_cons]
    cases hp : decide ((host.groupVolumes g).length > 1) with
    | false =>
      have hp2 : ¬ (1 < (host.groupVolumes g).length) := by simpa using hp
      rw [if_neg hp2, if_neg hp2]
      simpa [cmds, Event.cmdString] using ih
    | true =>
      have hp2 : 1 < (host.groupVolumes g).length := by simpa using hp
      rw [if_pos hp2, if_pos hp2]
      simpa [cmds, Event.cmdString] using ih

theorem prints_append (a b : List Event) : prints (a ++ b) = prints a ++ prints b := by
  simp [prints]

theorem cmds_cons_cmd (s : String) (t : List Event) :
    cmds (Event.cmd s :: t) = s :: cmds t := rfl

theorem cmds_cons_queryEntities (k : String) (t : List Event) :
    cmds (Event.queryEntities k :: t) = cmds t := rfl

theorem cmds_cons_queryIdFromName (nm : String) (t : List Event) :
    cmds (Event.queryIdFromName nm :: t) = cmds t := rfl

theorem cmds_map_cmd (f : Nat → String) (l : List Nat) :
    cmds (l.map (fun x => Event.cmd (f x))) = l.map f := by
  induction l with
  | nil => rfl
  | cons x xs ih => simp_all [cmds, Event.cmdString]

theorem color_spline_cmds (host : Host) :
    cmds (color_spline_surfaces host) =
      "color surface all default" ::
        ((if host.idFromName ("spline_surfaces") ≠ 0 then
            ["delete spline_surfaces"] else []) ++
          (("create group " ++ squote ++ "spline_surfaces" ++ squote) ::
            (host.surfaces.map (fun sid => "color surface " ++ toString sid ++
               (if pyLower (host.surfaceType sid) == "spline surface" then " red"
                else " white")) ++
             ["spline_surfaces add surface " ++ list_to_str (host.surfaces.filter
               (fun sid => pyLower (host.surfaceType sid) == "spline surface"))]))) := by
  have e1 : cmds (color_spline_surfaces host) =
      "color surface all default" ::
        cmds ((if host.idFromName ("spline_surfaces") ≠ 0 then
            [Event.cmd ("delete spline_surfaces")] else []) ++
          (Event.cmd ("create group " ++ squote ++ "spline_surfaces" ++ squote) ::
            Event.queryEntities ("surface") ::
            ((colorLoop host.surfaceType host.surfaces).1 ++
              [Event.cmd ("spline_surfaces add surface " ++
                list_to_str (colorLoop host.surfaceType host.surfaces).2)]))) := rfl
  rw [e1]
  by_cases h : host.idFromName ("spline_surfaces") ≠ 0
  · rw [if_pos h, if_pos h]
    simp only [cmds_append, cmds_cons_cmd, cmds_cons_queryEntities, cmds_nil,
      colorLoop_cmds, colorLoop_snd]
  · rw [if_neg h, if_neg h]
    simp only [cmds_append, cmds_cons_cmd, cmds_cons_queryEntities, cmds_nil,
      colorLoop_cmds, colorLoop_snd]

theorem head_append (p s : String) (c : Char) (h : p.data.head? = some c) :
    (p ++ s).data.head? = some c := by
  rw [String.data_append]
  cases hd : p.data with
  | nil => rw [hd] at h; cases h
  | cons x xs =>
    rw [hd] at h
    simp at h
    simp [hd, h]

theorem ne_by_head (a b : String) (ca cb : Char) (ha : a.data.head? = some ca)
    (hb : b.data.head? = some cb) (hne : ca ≠ cb) : a ≠ b := by
  intro h
  subst h
  rw [ha] at hb
  exact hne (by injection hb)

theorem prints_map_surfQuery (l : List Nat) :
    prints (l.map Event.querySurfaceType) = [] := by
  induction l with
  | nil => rfl
  | cons x xs ih => simp_all [prints, Event.printString]

theorem prints_map_curveQuery (l : List Nat) :
    prints (l.map Event.queryCurveType) = [] := by
  induction l with
  | nil => rfl
  | cons x xs ih => simp_all [prints, Event.printString]

end Helpers

/-- C2: `list_to_str` returns the space-separated concatenation of the
string forms of its elements in order (for any element type rendered by
`toString`, covering Python lists and tuples of identifiers); in
particular `list_to_str [1,2,3] = "1 2 3"` and `list_to_str [] = ""`. -/
theorem C2_list_to_str_space_separated :
    (∀ (α : Type) (inst : ToString α) (l : List α),
      @list_to_str α inst l = @spec_space_separated α inst l) ∧
    list_to_str [1, 2, 3] = "1 2 3" ∧
    list_to_str ([] : List Nat) = "" :=
  ⟨fun α inst l => @list_to_str_eq_spec α inst l, by rfl, by rfl⟩

/-- C3: for every host and optional prefix, the commands issued by
`part_volumes_to_part_groups` are exactly one
`create group '<prefix>_<vid>'` followed by one
`<prefix>_<vid> add volume <vid>` per enumerated volume id `vid`, in
enumeration order, with the prefix defaulting to `"part"` when omitted
(`none`); in total `2 * N` commands for `N` volumes, i.e. exactly `N`
create-group and `N` add-volume commands. -/
theorem C3_part_volumes_to_part_groups_commands (host : Host) (pfx : Option String) :
    cmds (part_volumes_to_part_groups host pfx) =
      host.volumes.flatMap (fun vid =>
        [createGroupCmd (pfx.getD ("part")) vid,
         addVolumeCmd (pfx.getD ("part")) vid]) ∧
    (cmds (part_volumes_to_part_groups host pfx)).length = 2 * host.volumes.length := by
  refine ⟨part_groups_cmds host pfx, ?_⟩
  rw [part_groups_cmds host pfx]
  induction host.volumes with
  | nil => rfl
  | cons v vs ih =>
    simp only [List.flatMap_cons, List.length_append, List.length_cons, ih]
    simp [Nat.mul_add, Nat.mul_succ]
    omega

/-- C4: for every host, `imprint_merge_each_group` issues, per group with
more than one member volume, exactly one `imprint vol <ids>` command
followed by one `merge vol <ids>` command over the full member set
rendered space-separated, and no command at all for groups with one or
zero member volumes; on a host with one group of member volumes
`[3, 5, 9]` the two commands are exactly `imprint vol 3 5 9` and
`merge vol 3 5 9`, both containing the substring `"3 5 9"`. -/
theorem C4_imprint_merge_each_group_commands (host : Host) :
    cmds (imprint_merge_each_group host) =
      host.groups.flatMap (fun gid =>
        if (host.groupVolumes gid).length > 1 then
          ["imprint vol " ++ list_to_str (host.groupVolumes gid),
           "merge vol " ++ list_to_str (host.groupVolumes gid)]
        else []) ∧
    cmds (imprint_merge_each_group exampleGroupHost) =
      ["imprint vol 3 5 9", "merge vol 3 5 9"] ∧
    (∃ a b : String, "imprint vol 3 5 9" = a ++ "3 5 9" ++ b) ∧
    (∃ a b : String, "merge vol 3 5 9" = a ++ "3 5 9" ++ b) := by
  refine ⟨imprint_merge_cmds host, by rfl, ⟨"imprint vol ", "", by rfl⟩,
    ⟨"merge vol ", "", by rfl⟩⟩

/-- C1: `count_acis_entity_types` buckets the enumerated surface ids into
the five lists selected by lowercased string-match against the five known
surface labels and the curve ids into the four lists for the four known
curve labels (each bucket is exactly the in-order filter of the host's
enumeration by its label); an id lies in some bucket iff its lowercased
label is one of the known labels, so unrecognized labels land in no
bucket; the single printed report renders the nine bucket sizes; and the
returned value is the pair
`((plane, cone, sphere, torus, spline), (straight, arc, ellipse, spline))`. -/
theorem C1_count_acis_entity_types_partitions (host : Host) :
    (count_acis_entity_types host).2 =
      ((host.surfaces.filter (fun x => pyLower (host.surfaceType x) == "plane surface"),
        host.surfaces.filter (fun x => pyLower (host.surfaceType x) == "cone surface"),
        host.surfaces.filter (fun x => pyLower (host.surfaceType x) == "sphere surface"),
        host.surfaces.filter (fun x => pyLower (host.surfaceType x) == "torus surface"),
        host.surfaces.filter (fun x => pyLower (host.surfaceType x) == "spline surface")),
       (host.curves.filter (fun x => pyLower (host.curveType x) == "straight curve"),
        host.curves.filter (fun x => pyLower (host.curveType x) == "arc curve"),
        host.curves.filter (fun x => pyLower (host.curveType x) == "ellipse curve"),
        host.curves.filter (fun x => pyLower (host.curveType x) == "spline curve"))) ∧
    (∀ sid : Nat,
      (sid ∈ (count_acis_entity_types host).2.1.1 ∨
       sid ∈ (count_acis_entity_types host).2.1.2.1 ∨
       sid ∈ (count_acis_entity_types host).2.1.2.2.1 ∨
       sid ∈ (count_acis_entity_types host).2.1.2.2.2.1 ∨
       sid ∈ (count_acis_entity_types host).2.1.2.2.2.2) ↔
      (sid ∈ host.surfaces ∧
        pyLower (host.surfaceType sid) ∈
          ["plane surface", "cone surface", "sphere surface",
           "torus surface", "spline surface"])) ∧
    (∀ cid : Nat,
      (cid ∈ (count_acis_entity_types host).2.2.1 ∨
       cid ∈ (count_acis_entity_types host).2.2.2.1 ∨
       cid ∈ (count_acis_entity_types host).2.2.2.2.1 ∨
       cid ∈ (count_acis_entity_types host).2.2.2.2.2) ↔
      (cid ∈ host.curves ∧
        pyLower (host.curveType cid) ∈
          ["straight curve", "arc curve", "ellipse curve", "spline curve"])) ∧
    prints (count_acis_entity_types host).1 =
      [countReport (count_acis_entity_types host).2.1 (count_acis_entity_types host).2.2] := by
  have hmain : (count_acis_entity_types host).2 =
      ((host.surfaces.filter (fun x => pyLower (host.surfaceType x) == "plane surface"),
        host.surfaces.filter (fun x => pyLower (host.surfaceType x) == "cone surface"),
        host.surfaces.filter (fun x => pyLower (host.surfaceType x) == "sphere surface"),
        host.surfaces.filter (fun x => pyLower (host.surfaceType x) == "torus surface"),
        host.surfaces.filter (fun x => pyLower (host.surfaceType x) == "spline surface")),
       (host.curves.filter (fun x => pyLower (host.curveType x) == "straight curve"),
        host.curves.filter (fun x => pyLower (host.curveType x) == "arc curve"),
        host.curves.filter (fun x => pyLower (host.curveType x) == "ellipse curve"),
        host.curves.filter (fun x => pyLower (host.curveType x) == "spline curve"))) := by
    simp [count_acis_entity_types, classifySurfaces_eq_filter, classifyCurves_eq_filter]
  refine ⟨hmain, ?_, ?_, ?_⟩
  · intro sid
    rw [hmain]
    simp only [List.mem_filter, beq_iff_eq, List.mem_cons, List.not_mem_nil, or_false]
    tauto
  · intro cid
    rw [hmain]
    simp only [List.mem_filter, beq_iff_eq, List.mem_cons, List.not_mem_nil, or_false]
    tauto
  · have e1 : prints (count_acis_entity_types host).1 =
        prints (host.surfaces.map Event.querySurfaceType ++
          host.curves.map Event.queryCurveType ++
          [Event.print (countReport
            (classifySurfaces host.surfaceType host.surfaces)
            (classifyCurves host.curveType host.curves))]) := rfl
    rw [e1, prints_append, prints_append, prints_map_surfQuery, prints_map_curveQuery]
    rfl

/-- C5: every run of `batch_remove_overlaps_from_volume` performs, in
order, exactly one max-gap set and exactly one max-angle set (with the
caller's two tolerance arguments), then the volume enumeration and the
overlap query, then only the remove-overlap commands — so both
set-tolerance calls happen exactly once, before the overlap query, no
matter how many overlapping volumes the query returns; and the modelled
Python defaults are `0.0005` and `5.0`. -/
theorem C5_tolerances_set_once_before_query (host : Host) (mid : Nat) (g a : ℚ) :
    batch_remove_overlaps_from_volume host mid g a =
      Event.setOverlapMaxGap g :: Event.setOverlapMaxAngle a ::
        Event.queryEntities ("volume") :: Event.queryOverlappingVolumes mid ::
        (host.overlappingVolumesAt mid).map (fun vid =>
          Event.cmd (removeOverlapCmd vid mid)) ∧
    (batch_remove_overlaps_from_volume host mid g a).countP Event.isSetGap = 1 ∧
    (batch_remove_overlaps_from_volume host mid g a).countP Event.isSetAngle = 1 ∧
    (∃ pre post,
      batch_remove_overlaps_from_volume host mid g a =
        pre ++ Event.queryOverlappingVolumes mid :: post ∧
      Event.setOverlapMaxGap g ∈ pre ∧ Event.setOverlapMaxAngle a ∈ pre ∧
      ∀ e ∈ post, Event.isSetGap e = false ∧ Event.isSetAngle e = false) ∧
    default_max_gap = (1 : ℚ) / 2000 ∧ default_max_angle = 5 := by
  refine ⟨rfl, ?_, ?_, ?_, by norm_num [default_max_gap], by norm_num [default_max_angle]⟩
  · simp [batch_remove_overlaps_from_volume, List.countP_cons, List.countP_map,
      Event.isSetGap, Event.isSetAngle, Function.comp, List.countP_eq_zero]
  · simp [batch_remove_overlaps_from_volume, List.countP_cons, List.countP_map,
      Event.isSetGap, Event.isSetAngle, Function.comp, List.countP_eq_zero]
  · refine ⟨[Event.setOverlapMaxGap g, Event.setOverlapMaxAngle a,
      Event.queryEntities ("volume")],
      (host.overlappingVolumesAt mid).map (fun vid =>
        Event.cmd (removeOverlapCmd vid mid)), rfl, by simp, by simp, ?_⟩
    intro e he
    rw [List.mem_map] at he
    obtain ⟨vid, _, rfl⟩ := he
    exact ⟨rfl, rfl⟩

/-- C6: after the overlap query, `batch_remove_overlaps_from_volume`
issues exactly one `remove overlap volume <vid> <mid> modify volume
<mid>` command per overlapping volume id `vid` returned by the host, in
the host query's return order; these are the only commands issued, and
each names both the overlapping id and the target id. -/
theorem C6_one_remove_overlap_command_per_volume (host : Host) (mid : Nat) (g a : ℚ) :
    cmds (batch_remove_overlaps_from_volume host mid g a) =
      (host.overlappingVolumesAt mid).map (fun vid => removeOverlapCmd vid mid) ∧
    (∀ vid : Nat, removeOverlapCmd vid mid =
      "remove overlap volume " ++ toString vid ++ " " ++ toString mid ++
        " modify volume " ++ toString mid) := by
  refine ⟨?_, fun vid => rfl⟩
  have e1 : cmds (batch_remove_overlaps_from_volume host mid g a) =
      cmds ((host.overlappingVolumesAt mid).map (fun vid =>
        Event.cmd (removeOverlapCmd vid mid))) := rfl
  rw [e1, cmds_map_cmd]

/-- C7: for every host, `color_spline_surfaces` issues exactly one color
command per enumerated surface id, in enumeration order — red when the
surface's lowercased type label is `spline surface`, white otherwise —
and rebuilds the `spline_surfaces` group: it deletes the old group
exactly when a group of that name pre-exists (name lookup nonzero), then
creates a fresh `spline_surfaces` group and adds to it exactly the
spline-type surface ids. -/
theorem C7_color_spline_surfaces_commands (host : Host) :
    cmds (color_spline_surfaces host) =
      "color surface all default" ::
        ((if host.idFromName ("spline_surfaces") ≠ 0 then
            ["delete spline_surfaces"] else []) ++
          (("create group " ++ squote ++ "spline_surfaces" ++ squote) ::
            (host.surfaces.map (fun sid => "color surface " ++ toString sid ++
               (if pyLower (host.surfaceType sid) == "spline surface" then " red"
                else " white")) ++
             ["spline_surfaces add surface " ++ list_to_str (host.surfaces.filter
               (fun sid => pyLower (host.surfaceType sid) == "spline surface"))]))) :=
  color_spline_cmds host

/-- C9: type classification is case-insensitive for every known label:
both `count_acis_entity_types` and `color_spline_surfaces` lowercase the
host-returned label before comparing, so any surface or curve whose label
lowercases to one of the nine known labels (plane, cone, sphere, torus,
spline surface; straight, arc, ellipse, spline curve) is classified into
that label's bucket — a label differing from a known label only in letter
case therefore counts as that label — and a surface whose label
lowercases to `spline surface` is also colored red; mixed-case versions
of all nine labels lowercase to the known labels. -/
theorem C9_type_match_case_insensitive (host : Host) :
    (∀ sid ∈ host.surfaces, pyLower (host.surfaceType sid) = "plane surface" →
      sid ∈ (count_acis_entity_types host).2.1.1) ∧
    (∀ sid ∈ host.surfaces, pyLower (host.surfaceType sid) = "cone surface" →
      sid ∈ (count_acis_entity_types host).2.1.2.1) ∧
    (∀ sid ∈ host.surfaces, pyLower (host.surfaceType sid) = "sphere surface" →
      sid ∈ (count_acis_entity_types host).2.1.2.2.1) ∧
    (∀ sid ∈ host.surfaces, pyLower (host.surfaceType sid) = "torus surface" →
      sid ∈ (count_acis_entity_types host).2.1.2.2.2.1) ∧
    (∀ sid ∈ host.surfaces, pyLower (host.surfaceType sid) = "spline surface" →
      sid ∈ (count_acis_entity_types host).2.1.2.2.2.2 ∧
      ("color surface " ++ toString sid ++ " red") ∈
        cmds (color_spline_surfaces host)) ∧
    (∀ cid ∈ host.curves, pyLower (host.curveType cid) = "straight curve" →
      cid ∈ (count_acis_entity_types host).2.2.1) ∧
    (∀ cid ∈ host.curves, pyLower (host.curveType cid) = "arc curve" →
      cid ∈ (count_acis_entity_types host).2.2.2.1) ∧
    (∀ cid ∈ host.curves, pyLower (host.curveType cid) = "ellipse curve" →
      cid ∈ (count_acis_entity_types host).2.2.2.2.1) ∧
    (∀ cid ∈ host.curves, pyLower (host.curveType cid) = "spline curve" →
      cid ∈ (count_acis_entity_types host).2.2.2.2.2) ∧
    pyLower "Plane Surface" = "plane surface" ∧
    pyLower "CONE SURFACE" = "cone surface" ∧
    pyLower "Sphere surface" = "sphere surface" ∧
    pyLower "tOrUs SuRfAcE" = "torus surface" ∧
    pyLower "Spline Surface" = "spline surface" ∧
    pyLower "Straight Curve" = "straight curve" ∧
    pyLower "ARC CURVE" = "arc curve" ∧
    pyLower "Ellipse curve" = "ellipse curve" ∧
    pyLower "Spline Curve" = "spline curve" := by
  refine ⟨?_, ?_, ?_, ?_, ?_, ?_, ?_, ?_, ?_,
    by decide, by decide, by decide, by decide, by decide,
    by decide, by decide, by decide, by decide⟩
  · intro sid hm hc
    rw [show (count_acis_entity_types host).2.1.1 =
        (classifySurfaces host.surfaceType host.surfaces).1 from rfl,
      classifySurfaces_eq_filter]
    exact List.mem_filter.mpr ⟨hm, by simp [hc]⟩
  · intro sid hm hc
    rw [show (count_acis_entity_types host).2.1.2.1 =
        (classifySurfaces host.surfaceType host.surfaces).2.1 from rfl,
      classifySurfaces_eq_filter]
    exact List.mem_filter.mpr ⟨hm, by simp [hc]⟩
  · intro sid hm hc
    rw [show (count_acis_entity_types host).2.1.2.2.1 =
        (classifySurfaces host.surfaceType host.surfaces).2.2.1 from rfl,
      classifySurfaces_eq_filter]
    exact List.mem_filter.mpr ⟨hm, by simp [hc]⟩
  · intro sid hm hc
    rw [show (count_acis_entity_types host).2.1.2.2.2.1 =
        (classifySurfaces host.surfaceType host.surfaces).2.2.2.1 from rfl,
      classifySurfaces_eq_filter]
    exact List.mem_filter.mpr ⟨hm, by simp [hc]⟩
  · intro sid hm hc
    constructor
    · rw [show (count_acis_entity_types host).2.1.2.2.2.2 =
          (classifySurfaces host.surfaceType host.surfaces).2.2.2.2 from rfl,
        classifySurfaces_eq_filter]
      exact List.mem_filter.mpr ⟨hm, by simp [hc]⟩
    · rw [color_spline_cmds]
      apply List.mem_cons_of_mem
      apply List.mem_append_right
      apply List.mem_cons_of_mem
      apply List.mem_append_left
      exact List.mem_map.mpr ⟨sid, hm, by simp [hc]⟩
  · intro cid hm hc
    rw [show (count_acis_entity_types host).2.2.1 =
        (classifyCurves host.curveType host.curves).1 from rfl,
      classifyCurves_eq_filter]
    exact List.mem_filter.mpr ⟨hm, by simp [hc]⟩
  · intro cid hm hc
    rw [show (count_acis_entity_types host).2.2.2.1 =
        (classifyCurves host.curveType host.curves).2.1 from rfl,
      classifyCurves_eq_filter]
    exact List.mem_filter.mpr ⟨hm, by simp [hc]⟩
  · intro cid hm hc
    rw [show (count_acis_entity_types host).2.2.2.2.1 =
        (classifyCurves host.curveType host.curves).2.2.1 from rfl,
      classifyCurves_eq_filter]
    exact List.mem_filter.mpr ⟨hm, by simp [hc]⟩
  · intro cid hm hc
    rw [show (count_acis_entity_types host).2.2.2.2.2 =
        (classifyCurves host.curveType host.curves).2.2.2 from rfl,
      classifyCurves_eq_filter]
    exact List.mem_filter.mpr ⟨hm, by simp [hc]⟩

/-- C9 witness: on `mixedCaseHost`, whose nine entities carry mixed-case
versions of all nine known labels, each entity lands in the bucket of the
label it lowercases to, and the spline surface is colored red. -/
theorem C9_type_match_case_insensitive_witness :
    pyLower (mixedCaseHost.surfaceType 1) = "plane surface" ∧
    pyLower (mixedCaseHost.surfaceType 2) = "cone surface" ∧
    pyLower (mixedCaseHost.surfaceType 3) = "sphere surface" ∧
    pyLower (mixedCaseHost.surfaceType 4) = "torus surface" ∧
    pyLower (mixedCaseHost.surfaceType 5) = "spline surface" ∧
    pyLower (mixedCaseHost.curveType 6) = "straight curve" ∧
    pyLower (mixedCaseHost.curveType 7) = "arc curve" ∧
    pyLower (mixedCaseHost.curveType 8) = "ellipse curve" ∧
    pyLower (mixedCaseHost.curveType 9) = "spline curve" ∧
    1 ∈ (count_acis_entity_types mixedCaseHost).2.1.1 ∧
    2 ∈ (count_acis_entity_types mixedCaseHost).2.1.2.1 ∧
    3 ∈ (count_acis_entity_types mixedCaseHost).2.1.2.2.1 ∧
    4 ∈ (count_acis_entity_types mixedCaseHost).2.1.2.2.2.1 ∧
    5 ∈ (count_acis_entity_types mixedCaseHost).2.1.2.2.2.2 ∧
    ("color surface " ++ toString 5 ++ " red") ∈
      cmds (color_spline_surfaces mixedCaseHost) ∧
    6 ∈ (count_acis_entity_types mixedCaseHost).2.2.1 ∧
    7 ∈ (count_acis_entity_types mixedCaseHost).2.2.2.1 ∧
    8 ∈ (count_acis_entity_types mixedCaseHost).2.2.2.2.1 ∧
    9 ∈ (count_acis_entity_types mixedCaseHost).2.2.2.2.2 := by
  refine ⟨by decide, by decide, by decide, by decide, by decide,
    by decide, by decide, by decide, by decide,
    ?_, ?_, ?_, ?_, ?_, ?_, ?_, ?_, ?_, ?_⟩
  · exact (C9_type_match_case_insensitive mixedCaseHost).1 1 (by decide) (by decide)
  · exact (C9_type_match_case_insensitive mixedCaseHost).2.1 2 (by decide) (by decide)
  · exact (C9_type_match_case_insensitive mixedCaseHost).2.2.1 3 (by decide) (by decide)
  · exact (C9_type_match_case_insensitive mixedCaseHost).2.2.2.1 4 (by decide)
      (by decide)
  · exact ((C9_type_match_case_insensitive mixedCaseHost).2.2.2.2.1 5 (by decide)
      (by decide)).1
  · exact ((C9_type_match_case_insensitive mixedCaseHost).2.2.2.2.1 5 (by decide)
      (by decide)).2
  · exact (C9_type_match_case_insensitive mixedCaseHost).2.2.2.2.2.1 6 (by decide)
      (by decide)
  · exact (C9_type_match_case_insensitive mixedCaseHost).2.2.2.2.2.2.1 7 (by decide)
      (by decide)
  · exact (C9_type_match_case_insensitive mixedCaseHost).2.2.2.2.2.2.2.1 8 (by decide)
      (by decide)
  · exact (C9_type_match_case_insensitive mixedCaseHost).2.2.2.2.2.2.2.2.1 9 (by decide)
      (by decide)

/-- C10: on a host with no spline surfaces and a pre-existing
`spline_surfaces` group, `color_spline_surfaces` still deletes the old
group, creates a fresh one, colors every surface white, and issues
exactly one add-surface command whose id list is empty — the command is
exactly `spline_surfaces add surface ` (nothing after the trailing
space), so the group ends up empty rather than absent. -/
theorem C10_no_splines_still_rebuilds_group (host : Host)
    (h1 : ∀ sid ∈ host.surfaces, pyLower (host.surfaceType sid) ≠ "spline surface")
    (h2 : host.idFromName ("spline_surfaces") ≠ 0) :
    cmds (color_spline_surfaces host) =
      "color surface all default" :: "delete spline_surfaces" ::
        ("create group " ++ squote ++ "spline_surfaces" ++ squote) ::
        (host.surfaces.map (fun sid => "color surface " ++ toString sid ++ " white") ++
         ["spline_surfaces add surface "]) ∧
    (cmds (color_spline_surfaces host)).countP
      (fun s => s == "spline_surfaces add surface ") = 1 := by
  have hfil : host.surfaces.filter
      (fun sid => pyLower (host.surfaceType sid) == "spline surface") = [] := by
    rw [List.filter_eq_nil_iff]
    intro a ha
    simp [h1 a ha]
  have hmap : host.surfaces.map (fun sid => "color surface " ++ toString sid ++
      (if pyLower (host.surfaceType sid) == "spline surface" then " red" else " white")) =
      host.surfaces.map (fun sid => "color surface " ++ toString sid ++ " white") := by
    apply List.map_congr_left
    intro a ha
    simp [h1 a ha]
  have hcm : cmds (color_spline_surfaces host) =
      "color surface all default" :: "delete spline_surfaces" ::
        ("create group " ++ squote ++ "spline_surfaces" ++ squote) ::
        (host.surfaces.map (fun sid => "color surface " ++ toString sid ++ " white") ++
         ["spline_surfaces add surface "]) := by
    rw [color_spline_cmds, if_pos h2, hfil, hmap]
    rfl
  refine ⟨hcm, ?_⟩
  have hzero : (host.surfaces.map (fun sid =>
      "color surface " ++ toString sid ++ " white")).countP
      (fun s => s == "spline_surfaces add surface ") = 0 := by
    rw [List.countP_eq_zero]
    intro a ha
    rw [List.mem_map] at ha
    obtain ⟨sid, _, rfl⟩ := ha
    have hne : ("color surface " ++ (toString sid ++ " white")) ≠
        "spline_surfaces add surface " :=
      ne_by_head _ _ ('c') ('s') (head_append _ _ _ (by decide)) (by decide) (by decide)
    simpa [String.append_assoc, beq_iff_eq] using hne
  have hcreate : ¬ ("create group " ++ squote ++ "spline_surfaces" ++ squote =
      "spline_surfaces add surface ") := by decide
  rw [hcm]
  simp [List.countP_cons, List.countP_append, hzero, hcreate]

/-- C10 witness: on `noSplineHost` (surfaces labelled `plane surface`,
pre-existing `spline_surfaces` group), exactly one add-surface command
with an empty id list is issued. -/
theorem C10_no_splines_still_rebuilds_group_witness :
    (∀ sid ∈ noSplineHost.surfaces,
      pyLower (noSplineHost.surfaceType sid) ≠ "spline surface") ∧
    noSplineHost.idFromName ("spline_surfaces") ≠ 0 ∧
    (cmds (color_spline_surfaces noSplineHost)).countP
      (fun s => s == "spline_surfaces add surface ") = 1 :=
  ⟨by decide, by decide,
    (C10_no_splines_still_rebuilds_group noSplineHost (by decide) (by decide)).2⟩

/-- C8: no function catches, wraps, or retries a host-side error.  Every
function's interaction sequence is straight-line (no `try`/`except`), so
under the failing-host semantics `runTrace`, if the host raises at its
`k`-th interaction then the run of each function returns the host's error
unchanged, and the interactions actually performed are exactly the first
`k` of the function's trace — the side effects of all previously issued
commands stand, with no rollback and no retry (the operations are not
atomic on error). -/
theorem C8_host_errors_uncaught_no_rollback (host : Host) (pfx : Option String)
    (failsAt : Nat → Bool) (err : String) (k : Nat)
    (hbefore : ∀ j, j < k → failsAt j = false) (hfail : failsAt k = true) :
    (k < (part_volumes_to_part_groups host pfx).length →
      runTrace failsAt err (part_volumes_to_part_groups host pfx) 0 =
        ((part_volumes_to_part_groups host pfx).take k, some err)) ∧
    (k < (imprint_merge_each_group host).length →
      runTrace failsAt err (imprint_merge_each_group host) 0 =
        ((imprint_merge_each_group host).take k, some err)) ∧
    (∀ (mid : Nat) (g a : ℚ),
      k < (batch_remove_overlaps_from_volume host mid g a).length →
      runTrace failsAt err (batch_remove_overlaps_from_volume host mid g a) 0 =
        ((batch_remove_overlaps_from_volume host mid g a).take k, some err)) ∧
    (k < (count_acis_entity_types host).1.length →
      runTrace failsAt err (count_acis_entity_types host).1 0 =
        ((count_acis_entity_types host).1.take k, some err)) ∧
    (k < (color_spline_surfaces host).length →
      runTrace failsAt err (color_spline_surfaces host) 0 =
        ((color_spline_surfaces host).take k, some err)) := by
  have hb : ∀ j, j < k → failsAt (0 + j) = false := by
    intro j hj
    simpa using hbefore j hj
  have hf : failsAt (0 + k) = true := by simpa using hfail
  exact ⟨fun hk => runTrace_stops failsAt err _ k 0 hb hf hk,
    fun hk => runTrace_stops failsAt err _ k 0 hb hf hk,
    fun mid g a hk => runTrace_stops failsAt err _ k 0 hb hf hk,
    fun hk => runTrace_stops failsAt err _ k 0 hb hf hk,
    fun hk => runTrace_stops failsAt err _ k 0 hb hf hk⟩

/-- C8 witness: on `exampleGroupHost` (three volumes), with a host that
raises `Invalid entity id` at interaction 2 (the second command, after
the volume query and the first `create group`), `part_volumes_to_part_groups`
propagates that error and the performed interactions are exactly the first
two — the already-created group is not rolled back. -/
theorem C8_host_errors_uncaught_no_rollback_witness :
    (∀ j, j < 2 → (fun n : Nat => n == 2) j = false) ∧
    (fun n : Nat => n == 2) 2 = true ∧
    2 < (part_volumes_to_part_groups exampleGroupHost none).length ∧
    runTrace (fun n : Nat => n == 2) ("Invalid entity id")
        (part_volumes_to_part_groups exampleGroupHost none) 0 =
      ((part_volumes_to_part_groups exampleGroupHost none).take 2,
        some ("Invalid entity id")) :=
  ⟨by decide, by decide, by decide,
    (C8_host_errors_uncaught_no_rollback exampleGroupHost none
      (fun n : Nat => n == 2) ("Invalid entity id") 2
      (by decide) (by decide)).1 (by decide)⟩
